import Mathlib

/-!
Verification of `script2.py` (menorca-platges): a one-shot pipeline that
fetches one web page, extracts per-beach parking-status records from
`div.PLA_linia` containers, optionally bulk-inserts them into a database,
optionally emits pretty-printed JSON, and appends a GitHub Actions step
summary.  The Python functions `scrape_parking_status`, `save_to_supabase`,
`setup_supabase` and `main` are shallowly embedded below; external effects
(the HTTP fetch, the database client, the environment, the summary file)
are passed in explicitly.
-/

/-! ## String helpers (Python semantics) -/

/-- Does `pat` occur at the start of `s`?  (List-level, executable.) -/
def startsL : List Char → List Char → Bool
  | [], _ => true
  | _ :: _, [] => false
  | a :: as, b :: bs => a == b && startsL as bs

/-- Does `pat` occur anywhere inside `s`?  Embeds Python's `pat in s`
substring test used by the id-matching lambdas. -/
def hasSubL (pat : List Char) : List Char → Bool
  | [] => startsL pat []
  | c :: rest => startsL pat (c :: rest) || hasSubL pat rest

/-- Python's `pat in s` on strings. -/
def strContains (s pat : String) : Bool := hasSubL pat.data s.data

/-- The whitespace characters removed by Python's `str.strip()` (the ASCII
ones; the source page's labels contain no exotic unicode whitespace). -/
def isSpaceChar (c : Char) : Bool :=
  c = ' ' || c = '\t' || c = '\n' || c = '\r' || c = '\x0b' || c = '\x0c'

/-- Strip leading and trailing whitespace, as `get_text(strip=True)` does to
a label's text.  (Executable counterpart of `String.trim`.) -/
def pyStrip (s : String) : String :=
  String.mk ((((s.data.dropWhile isSpaceChar).reverse).dropWhile isSpaceChar).reverse)

/-! ## DOM model

The scraper only inspects: all `div` elements of class `PLA_linia`, and
inside each, the first `span` whose `id` attribute satisfies a substring
predicate.  A page is the list of `div`s in document order; each div carries
its class and its descendant spans in document order; a span carries its
optional `id` attribute (BeautifulSoup hands `None` to the id-lambda when
the attribute is absent) and its text content. -/

structure SpanNode where
  id : Option String
  text : String
deriving DecidableEq

structure DivNode where
  className : String
  spans : List SpanNode
deriving DecidableEq

abbrev Page := List DivNode

/-- Embeds `lambda x: x and 'Content1_Label' in x` — the beach-name id heuristic
(line 121 of script2.py).  `x and …` is false for `None` and for `""`. -/
def idMatchBeach : Option String → Bool
  | none => false
  | some x => (!(x == "")) && strContains x "Content1_Label"

/-- Embeds `lambda x: x and 'Content1_lb' in x and 'Label' not in x` — the status
id heuristic (line 124 of script2.py). -/
def idMatchStatus : Option String → Bool
  | none => false
  | some x => (!(x == "")) && strContains x "Content1_lb" && !(strContains x "Label")

/-- Embeds `div.find('span', id=…)` for the beach label: first matching span. -/
def findBeachLabel (d : DivNode) : Option SpanNode :=
  d.spans.find? (fun s => idMatchBeach s.id)

/-- Embeds `div.find('span', id=…)` for the status label: first matching span. -/
def findStatusLabel (d : DivNode) : Option SpanNode :=
  d.spans.find? (fun s => idMatchStatus s.id)

/-- Embeds the `soup.find_all('div', class_='PLA_linia')` membership test. -/
def isPLA (d : DivNode) : Bool := d.className == "PLA_linia"

/-! ## Records and the scraper -/

/-- The record the extractor builds (keys `Date`/`Beach`/`Status` of the
Python dict at lines 130-134 of script2.py). -/
structure ParkingRecord where
  date : String
  beach : String
  status : String
deriving DecidableEq

/-- Outcome of `requests.get` + `raise_for_status`: either an exception of
the `requests.exceptions.RequestException` family (transport error, non-2xx
status via `raise_for_status`, timeout), carrying its message, or the
successfully fetched and parsed page. -/
inductive FetchResult where
  | failure (cause : String)
  | success (page : Page)

/-- The body of the `for i, div in enumerate(pla_linia_divs)` loop
(lines 119-139): a record is appended iff both labels are found; its text
fields are the stripped text of the found nodes. -/
def extractDiv (now : String) (d : DivNode) : Option ParkingRecord :=
  match findBeachLabel d, findStatusLabel d with
  | some b, some s => some ⟨now, pyStrip b.text, pyStrip s.text⟩
  | _, _ => none

/-- Embeds `scrape_parking_status` (lines 87-149 of script2.py).  `now` is the
single `datetime.now().isoformat()` value computed at line 115, once,
before the loop.  On a `RequestException` the function logs and returns
`[]` (line 144-146); with no `PLA_linia` divs it returns `[]` (line
108-110); otherwise it returns one record per div in which both labels
were found. -/
def scrape_parking_status (fetch : FetchResult) (now : String) : List ParkingRecord :=
  match fetch with
  | .failure _ => []
  | .success page =>
    let pla_linia_divs := page.filter isPLA
    if pla_linia_divs.isEmpty then []
    else pla_linia_divs.filterMap (extractDiv now)

/-! ## Persistence sink (`save_to_supabase`, lines 51-85) -/

/-- One row of the `parking_status` table, as built at lines 59-63. -/
structure DbRecord where
  recorded_at : String
  beach_name : String
  status : String
deriving DecidableEq

/-- The field mapping of lines 59-63. -/
def toDbRecord (item : ParkingRecord) : DbRecord :=
  ⟨item.date, item.beach, item.status⟩

/-- Outcome of `supabase.table('parking_status').insert(…).execute()`:
either an exception (caught at line 83) or a response whose `data` is the
list of rows the backend confirms written. -/
inductive BackendResult where
  | thrown (e : String)
  | ok (data : List DbRecord)

/-- Embeds `save_to_supabase` (lines 51-85).  The backend is passed as a function
from the submitted rows to its outcome; the embedding also returns the list
of insert calls made, so that "exactly one bulk call with the full list" is
a provable statement.  Returns `true` iff no exception occurred and
`result.data` was non-empty (Python truthiness of the list at line 71). -/
def save_to_supabase (backend : List DbRecord → BackendResult)
    (parking_data : List ParkingRecord) : Bool × List (List DbRecord) :=
  let db_records := parking_data.map toDbRecord
  match backend db_records with
  | .thrown _ => (false, [db_records])
  | .ok data => (!data.isEmpty, [db_records])

/-! ## Environment and `setup_supabase` (lines 32-49) -/

/-- The four environment variables the program reads.  `none` means the
variable is absent from the environment. -/
structure Env where
  supabaseUrl : Option String
  supabaseKey : Option String
  githubActions : Option String
  githubStepSummary : Option String
deriving DecidableEq

/-- Python truthiness of `os.getenv(name)`: false when the variable is
absent (`None`) or set to the empty string.  The code tests truthiness
(`if not url or not key`, line 39; `if os.getenv('GITHUB_ACTIONS')`, line
191), so "present"/"missing" in the spec is formalised as this test. -/
def truthy : Option String → Bool
  | none => false
  | some s => !(s == "")

/-- Embeds `setup_supabase` (lines 32-49), reduced to whether a client is
obtained: both credential variables must be truthy (line 39) and
`create_client` must not throw (`clientOk`, lines 43-49). -/
def setup_supabase (env : Env) (clientOk : Bool) : Bool :=
  if truthy env.supabaseUrl && truthy env.supabaseKey then clientOk else false

/-! ## JSON emission (`json.dumps(parking_data, indent=2, ensure_ascii=False)`)

`json.dumps` with `ensure_ascii=False` escapes exactly `"`  `\`  and the
control characters below U+0020 (the five with short escapes, `\u00xx`
for the rest, lowercase hex) and leaves every other character — in
particular all non-ASCII — unchanged.  With `indent=2` a list of dicts is
rendered over multiple lines exactly as laid out in `emitRecord` below.
A parser for this output is defined alongside, so that the round-trip is a
theorem. -/

/-- Lowercase hex digit, as produced by Python's `'\u%04x'` formatting. -/
def hexDigitChar (n : Nat) : Char :=
  if n < 10 then Char.ofNat (48 + n) else Char.ofNat (87 + n)

/-- Value of a hex digit (a JSON parser accepts both cases). -/
def hexVal (c : Char) : Option Nat :=
  if 48 ≤ c.toNat ∧ c.toNat ≤ 57 then some (c.toNat - 48)
  else if 97 ≤ c.toNat ∧ c.toNat ≤ 102 then some (c.toNat - 87)
  else if 65 ≤ c.toNat ∧ c.toNat ≤ 70 then some (c.toNat - 55)
  else none

/-- The escape of one character in a JSON string literal, per CPython's
`json.encoder` with `ensure_ascii=False`. -/
def escChar (c : Char) : List Char :=
  if c = '"' then ['\\', '"']
  else if c = '\\' then ['\\', '\\']
  else if c = '\x08' then ['\\', 'b']
  else if c = '\x09' then ['\\', 't']
  else if c = '\x0a' then ['\\', 'n']
  else if c = '\x0c' then ['\\', 'f']
  else if c = '\x0d' then ['\\', 'r']
  else if c.toNat < 32 then
    ['\\', 'u', '0', '0', hexDigitChar (c.toNat / 16), hexDigitChar (c.toNat % 16)]
  else [c]

/-- Escape a whole string body. -/
def escList : List Char → List Char
  | [] => []
  | c :: cs => escChar c ++ escList cs

/-- Decode a single-character escape (`\"` `\\` `\/` `\b` `\t` `\n` `\f`
`\r`). -/
def unescChar (c : Char) : Option Char :=
  if c = '"' then some '"'
  else if c = '\\' then some '\\'
  else if c = '/' then some '/'
  else if c = 'b' then some '\x08'
  else if c = 't' then some '\x09'
  else if c = 'n' then some '\x0a'
  else if c = 'f' then some '\x0c'
  else if c = 'r' then some '\x0d'
  else none

/-- Parse the body of a JSON string literal up to and including its closing
quote; return the decoded characters and the remaining input. -/
def parseStrBody : List Char → Option (List Char × List Char)
  | [] => none
  | c :: rest =>
    if c = '"' then some ([], rest)
    else if c = '\\' then
      match rest with
      | [] => none
      | e :: rest2 =>
        if e = 'u' then
          match rest2 with
          | a :: b :: c2 :: d :: rest3 =>
            match hexVal a, hexVal b, hexVal c2, hexVal d with
            | some va, some vb, some vc, some vd =>
              match parseStrBody rest3 with
              | some (cs, r) =>
                some (Char.ofNat (4096 * va + 256 * vb + 16 * vc + vd) :: cs, r)
              | none => none
            | _, _, _, _ => none
          | _ => none
        else
          match unescChar e, parseStrBody rest2 with
          | some ch, some (cs, r) => some (ch :: cs, r)
          | _, _ => none
    else
      match parseStrBody rest with
      | some (cs, r) => some (c :: cs, r)
      | none => none

/-- Expect a literal prefix; return the rest of the input. -/
def dropLit : List Char → List Char → Option (List Char)
  | [], s => some s
  | _ :: _, [] => none
  | c :: cs, d :: ds => if c = d then dropLit cs ds else none

/-- Fixed text from the start of a record object up to and including the
opening quote of the `Date` value (indent 2 / 4, key separator `": "`). -/
def jsonHeadDate : List Char := "  \x7b\n    \"Date\": \"".data

/-- Fixed text between the `Date` value and the `Beach` value. -/
def jsonKeyBeach : List Char := ",\n    \"Beach\": \"".data

/-- Fixed text between the `Beach` value and the `Status` value. -/
def jsonKeyStatus : List Char := ",\n    \"Status\": \"".data

/-- Fixed text closing a record object. -/
def jsonRecEnd : List Char := "\n  \x7d".data

/-- A string value rendered without its opening quote (that quote belongs
to the preceding fixed text): escaped body plus closing quote. -/
def qbody (s : String) : List Char := escList s.data ++ ['"']

/-- One record object as `json.dumps` renders it at indent level 1. -/
def emitRecord (r : ParkingRecord) : List Char :=
  jsonHeadDate ++ qbody r.date ++ jsonKeyBeach ++ qbody r.beach
    ++ jsonKeyStatus ++ qbody r.status ++ jsonRecEnd

/-- The record objects joined by `",\n"`. -/
def emitRecs : List ParkingRecord → List Char
  | [] => []
  | [r] => emitRecord r
  | r :: rs => emitRecord r ++ ',' :: '\n' :: emitRecs rs

/-- The full output of `json.dumps(parking_data, indent=2,
ensure_ascii=False)` at line 184. -/
def emitJson (rs : List ParkingRecord) : List Char :=
  match rs with
  | [] => ['[', ']']
  | _ => '[' :: '\n' :: (emitRecs rs ++ ['\n', ']'])

/-- The emitted JSON as a `String` (what `print` writes to stdout). -/
def emitJsonStr (rs : List ParkingRecord) : String := String.mk (emitJson rs)

/-- Parse one record object; return it and the remaining input. -/
def parseRec (s : List Char) : Option (ParkingRecord × List Char) :=
  match dropLit jsonHeadDate s with
  | none => none
  | some s1 =>
    match parseStrBody s1 with
    | none => none
    | some (d, s2) =>
      match dropLit jsonKeyBeach s2 with
      | none => none
      | some s3 =>
        match parseStrBody s3 with
        | none => none
        | some (b, s4) =>
          match dropLit jsonKeyStatus s4 with
          | none => none
          | some s5 =>
            match parseStrBody s5 with
            | none => none
            | some (st, s6) =>
              match dropLit jsonRecEnd s6 with
              | none => none
              | some s7 => some (⟨String.mk d, String.mk b, String.mk st⟩, s7)

/-- Parse a `",\n"`-separated sequence of record objects terminated by
`"\n]"` at end of input.  `fuel` bounds the recursion. -/
def parseRecs : Nat → List Char → Option (List ParkingRecord)
  | 0, _ => none
  | fuel + 1, s =>
    match parseRec s with
    | none => none
    | some (r, s1) =>
      match s1 with
      | ['\n', ']'] => some [r]
      | ',' :: '\n' :: rest =>
        match parseRecs fuel rest with
        | some rs => some (r :: rs)
        | none => none
      | _ => none

/-- Parse the emitted JSON document back into records. -/
def parseEmitted : List Char → Option (List ParkingRecord)
  | ['[', ']'] => some []
  | '[' :: '\n' :: rest => parseRecs (rest.length + 1) rest
  | _ => none

/-- String-level entry point of the parser. -/
def parseEmittedStr (s : String) : Option (List ParkingRecord) :=
  parseEmitted s.data

/-! ## GitHub Actions step summary (lines 191-205) -/

/-- The f-string summary built at lines 192-202.  `utcNow` is the
`datetime.utcnow().strftime('%Y-%m-%d %H:%M:%S')` value of line 195. -/
def summaryText (utcNow : String) (parking_data : List ParkingRecord) : String :=
  "\n## Beach Parking Monitor Results\n\n- **Execution Time**: " ++ utcNow
    ++ " UTC\n- **Records Processed**: " ++ toString parking_data.length
    ++ "\n- **Beaches Monitored**: "
    ++ String.intercalate ", " (parking_data.map (fun item => item.beach))
    ++ "\n\n### Current Status:\n"
    ++ String.join (parking_data.map
        (fun item => "- **" ++ item.beach ++ "**: " ++ item.status ++ "\n"))

/-! ## The driver (`main`, lines 151-205) -/

/-- How the process terminates: `sys.exit` with 0 (falling off `main`) or 1,
or by the uncaught `KeyError` from `os.environ['GITHUB_STEP_SUMMARY']` at
line 204 (which also makes the interpreter exit with a non-zero status, but
via a traceback, not via `sys.exit(1)`). -/
inductive Outcome where
  | exit0
  | exit1
  | keyError
deriving DecidableEq

/-- Everything observable about one run of `main`: how it terminated, what
JSON (if any) it printed to stdout, the insert calls it made, and the final
content of the step-summary file (`file0` plus whatever was appended;
line 204 opens the file in append mode `'a'`). -/
structure RunEffects where
  outcome : Outcome
  printedJson : Option String
  insertCalls : List (List DbRecord)
  summaryFile : String
deriving DecidableEq

/-- Embeds `main` (lines 151-205); named `mainFn` because Lean reserves `main` for
executable entry points.  Inputs: the command line, the environment, the
fetch outcome, the two wall-clock readings (`datetime.now().isoformat()`
inside the scraper, `datetime.utcnow().strftime(…)` for the summary),
whether `create_client` succeeds, the database backend, and the prior
content of the step-summary file. -/
def mainFn (argv : List String) (env : Env) (fetch : FetchResult)
    (nowIso utcNow : String) (clientOk : Bool)
    (backend : List DbRecord → BackendResult) (file0 : String) : RunEffects :=
  let save_to_db := !(argv.contains "--no-db")
  let output_json := argv.contains "--json"
  let parking_data := scrape_parking_status fetch nowIso
  if parking_data.isEmpty then
    ⟨.exit1, none, [], file0⟩
  else
    let persistStep : List (List DbRecord) × Bool :=
      if save_to_db then
        if setup_supabase env clientOk then
          let r := save_to_supabase backend parking_data
          (r.2, r.1)
        else ([], false)
      else ([], true)
    if !persistStep.2 then
      ⟨.exit1, none, persistStep.1, file0⟩
    else
      let printed : Option String :=
        if output_json || !save_to_db then some (emitJsonStr parking_data) else none
      if truthy env.githubActions then
        match env.githubStepSummary with
        | none => ⟨.keyError, printed, persistStep.1, file0⟩
        | some _ =>
          ⟨.exit0, printed, persistStep.1, file0 ++ summaryText utcNow parking_data⟩
      else
        ⟨.exit0, printed, persistStep.1, file0⟩

/-! ## Concrete demonstration inputs -/

/-- A well-formed container div as found on the live page: one name label,
one status label. -/
def demoDiv : DivNode :=
  ⟨"PLA_linia",
    [⟨some "ctl00_Content1_Label1", " Cala Macarella "⟩,
     ⟨some "ctl00_Content1_lbEstat1", " Oberta "⟩]⟩

/-- A container div with a status label but no name label. -/
def demoDivNoName : DivNode :=
  ⟨"PLA_linia", [⟨some "ctl00_Content1_lbEstat2", "Oberta"⟩]⟩

/-- A page with one qualifying container and one container missing its
name label. -/
def demoPage : Page := [demoDiv, demoDivNoName]

/-- A page whose single container has a name label holding only
whitespace text, beside a well-formed status label. -/
def blankNamePage : Page :=
  [⟨"PLA_linia",
     [⟨some "ctl00_Content1_Label1", "   "⟩,
      ⟨some "ctl00_Content1_lbEstat1", "Oberta"⟩]⟩]

/-- A page with containers but no qualifying ones. -/
def noLabelPage : Page := [⟨"PLA_linia", [⟨none, "stray text"⟩]⟩]

/-- An environment with no variable set. -/
def emptyEnv : Env := ⟨none, none, none, none⟩

/-- An environment with credentials, running under GitHub Actions with a
summary file configured. -/
def fullEnv : Env :=
  ⟨some "https://x.supabase.co", some "key", some "true", some "/tmp/summary"⟩

/-- An environment running under GitHub Actions with `GITHUB_STEP_SUMMARY`
absent. -/
def noSummaryEnv : Env := ⟨some "https://x.supabase.co", some "key", some "true", none⟩

/-- A backend that confirms every submitted row. -/
def backendEcho : List DbRecord → BackendResult := fun rows => .ok rows

/-- A backend that throws. -/
def backendThrow : List DbRecord → BackendResult := fun _ => .thrown "APIError"

/-- A backend that returns an empty confirmation. -/
def backendEmpty : List DbRecord → BackendResult := fun _ => .ok []

/-- The records extracted from `demoPage`. -/
def demoRecords : List ParkingRecord := [⟨"2025-07-01T12:00:00", "Cala Macarella", "Oberta"⟩]

/-- Records with a non-ASCII beach name, for the JSON round-trip. -/
def accentRecords : List ParkingRecord :=
  [⟨"2025-07-01T12:00:00", "Cala en Porter — çà", "Tancat"⟩,
   ⟨"2025-07-01T12:00:00", "Binigaus", "Obert"⟩]

/-! ## Helper lemmas -/

/-- A `filterMap` keeps as many elements as satisfy `(f a).isSome`. -/
theorem filterMap_length_eq {α β : Type} (f : α → Option β) (l : List α) :
    (l.filterMap f).length = (l.filter (fun a => (f a).isSome)).length := by
  induction l with
  | nil => rfl
  | cons a t ih =>
    cases h : f a <;> simp [List.filterMap_cons, List.filter_cons, h, ih]

/-- A container contributes a record exactly when both labels are found. -/
theorem extractDiv_isSome_eq (now : String) (d : DivNode) :
    (extractDiv now d).isSome = ((findBeachLabel d).isSome && (findStatusLabel d).isSome) := by
  unfold extractDiv
  cases findBeachLabel d <;> cases findStatusLabel d <;> rfl

/-- Any record a container yields carries the shared timestamp and the
stripped text of its two label nodes. -/
theorem extractDiv_eq_some {now : String} {d : DivNode} {r : ParkingRecord}
    (h : extractDiv now d = some r) :
    ∃ b s, findBeachLabel d = some b ∧ findStatusLabel d = some s
      ∧ r = ⟨now, pyStrip b.text, pyStrip s.text⟩ := by
  unfold extractDiv at h
  cases hb : findBeachLabel d <;> cases hs : findStatusLabel d <;> rw [hb, hs] at h <;>
    simp only [reduceCtorEq] at h
  case some.some b s =>
    exact ⟨b, s, rfl, rfl, (Option.some.injEq _ _ ▸ h).symm⟩

/-- Records produced by a successful scrape come from `PLA_linia` divs via
`extractDiv`. -/
theorem mem_scrape {page : Page} {now : String} {r : ParkingRecord}
    (hr : r ∈ scrape_parking_status (.success page) now) :
    ∃ d ∈ page.filter isPLA, extractDiv now d = some r := by
  simp only [scrape_parking_status] at hr
  split at hr
  · exact absurd hr (List.not_mem_nil r)
  · exact List.mem_filterMap.mp hr

/-! ## C1 -/

/-- C1: on a well-formed page, extraction returns exactly one record per
`PLA_linia` container in which both the name-label node and the
status-label node are found by the identifier-substring heuristics;
containers missing either label contribute nothing. -/
theorem c1_extraction_count (page : Page) (now : String) :
    (scrape_parking_status (.success page) now).length =
      ((page.filter isPLA).filter
        (fun d => (findBeachLabel d).isSome && (findStatusLabel d).isSome)).length := by
  simp only [scrape_parking_status]
  split
  · next h =>
    rw [List.isEmpty_iff.mp h]
    rfl
  · rw [filterMap_length_eq]
    simp only [extractDiv_isSome_eq]

/-! ## C7 -/

/-- C7: every record of one run carries the single timestamp value `now`
computed once (line 115) before the container loop, so all records of a
batch share an identical timestamp. -/
theorem c7_shared_timestamp (fetch : FetchResult) (now : String) (r : ParkingRecord)
    (hr : r ∈ scrape_parking_status fetch now) : r.date = now := by
  cases fetch with
  | failure cause => exact absurd hr (List.not_mem_nil r)
  | success page =>
    obtain ⟨d, -, hd⟩ := mem_scrape hr
    obtain ⟨b, s, -, -, hrec⟩ := extractDiv_eq_some hd
    rw [hrec]

/-- Witness for C7 at a concrete page. -/
theorem c7_shared_timestamp_witness :
    (⟨"2025-07-01T12:00:00", "Cala Macarella", "Oberta"⟩ : ParkingRecord)
        ∈ scrape_parking_status (.success demoPage) "2025-07-01T12:00:00"
    ∧ (⟨"2025-07-01T12:00:00", "Cala Macarella", "Oberta"⟩ : ParkingRecord).date
        = "2025-07-01T12:00:00" :=
  ⟨by decide, c7_shared_timestamp (.success demoPage) "2025-07-01T12:00:00" _ (by decide)⟩

/-! ## C5 -/

/-- C5: persistence performs exactly one bulk insert call carrying the full
mapped record list, and reports success exactly when the backend throws no
error and confirms a non-empty row list; an exception or an empty
confirmation yields `false`. -/
theorem c5_single_bulk_insert (backend : List DbRecord → BackendResult)
    (parking_data : List ParkingRecord) :
    (save_to_supabase backend parking_data).2 = [parking_data.map toDbRecord]
    ∧ ((save_to_supabase backend parking_data).1 = true ↔
        ∃ data, backend (parking_data.map toDbRecord) = .ok data ∧ data ≠ []) := by
  unfold save_to_supabase
  cases hb : backend (parking_data.map toDbRecord) with
  | thrown e => simp [hb]
  | ok data => simp [hb, List.isEmpty_iff]

/-- Witness for C5: the success side and the empty-confirmation side at
concrete inputs. -/
theorem c5_single_bulk_insert_witness :
    (save_to_supabase backendEcho demoRecords).2 = [demoRecords.map toDbRecord]
    ∧ (save_to_supabase backendEcho demoRecords).1 = true
    ∧ ¬ (save_to_supabase backendEmpty demoRecords).1 = true :=
  ⟨(c5_single_bulk_insert backendEcho demoRecords).1,
   (c5_single_bulk_insert backendEcho demoRecords).2.mpr
     ⟨demoRecords.map toDbRecord, rfl, by decide⟩,
   fun h => by
     obtain ⟨data, hdata, hne⟩ := (c5_single_bulk_insert backendEmpty demoRecords).2.mp h
     exact hne (by cases hdata; rfl)⟩

/-! ## C3 -/

/-- C3 counterexample: a transport failure is not reported to the driver as
a distinct `Failure` value — `scrape_parking_status` catches the exception
and returns the empty list, the very value returned for a page whose
containers pair no records, and `main` behaves identically on the two. -/
theorem c3_failure_counterexample :
    scrape_parking_status (.failure "ConnectTimeout") "2025-07-01T12:00:00"
      = scrape_parking_status (.success noLabelPage) "2025-07-01T12:00:00"
    ∧ scrape_parking_status (.failure "ConnectTimeout") "2025-07-01T12:00:00" = []
    ∧ mainFn [] emptyEnv (.failure "ConnectTimeout") "t" "u" true backendEcho ""
      = mainFn [] emptyEnv (.success noLabelPage) "t" "u" true backendEcho "" :=
  ⟨by decide, rfl, by decide⟩

/-- C3 amended: on any transport error, non-2xx status or timeout the
scraper catches the exception and returns the empty list — the same value
as an empty extraction — so the driver cannot distinguish the two cases and
exits 1 on any empty result. -/
theorem c3_amended_empty_on_failure (cause now utcNow file0 : String)
    (argv : List String) (env : Env) (clientOk : Bool)
    (backend : List DbRecord → BackendResult) :
    scrape_parking_status (.failure cause) now = []
    ∧ mainFn argv env (.failure cause) now utcNow clientOk backend file0 =
        mainFn argv env (.success []) now utcNow clientOk backend file0
    ∧ (mainFn argv env (.failure cause) now utcNow clientOk backend file0).outcome
        = .exit1 :=
  ⟨rfl, rfl, rfl⟩

/-! ## C2 -/

/-- C2 counterexample: the code only checks that both label *nodes* were
found (line 126), never that their text is non-empty; a container whose
name label holds only whitespace yields a record whose `beach_name` is the
empty string, refuting "every ParkingRecord emitted by extraction has a
non-empty beach_name and a non-empty status". -/
theorem c2_empty_field_counterexample :
    scrape_parking_status (.success blankNamePage) "2025-07-01T12:00:00"
      = [⟨"2025-07-01T12:00:00", "", "Oberta"⟩]
    ∧ ¬ (∀ r ∈ scrape_parking_status (.success blankNamePage) "2025-07-01T12:00:00",
          r.beach ≠ "" ∧ r.status ≠ "") :=
  ⟨by decide, by decide⟩

/-- C2 amended: a container missing either label node yields no record at
all (it is dropped, never defaulted); every emitted record comes from a
`PLA_linia` container in which both nodes were found, and its fields are
the whitespace-stripped text of those nodes — which may be empty, since
emptiness of the text is not checked. -/
theorem c2_amended_both_labels_required :
    (∀ (page : Page) (now : String) (r : ParkingRecord),
        r ∈ scrape_parking_status (.success page) now →
        ∃ d b s, d ∈ page ∧ isPLA d = true ∧ findBeachLabel d = some b
          ∧ findStatusLabel d = some s ∧ r = ⟨now, pyStrip b.text, pyStrip s.text⟩)
    ∧ (∀ (now : String) (d : DivNode),
        findBeachLabel d = none ∨ findStatusLabel d = none → extractDiv now d = none) := by
  constructor
  · intro page now r hr
    obtain ⟨d, hd, hex⟩ := mem_scrape hr
    obtain ⟨hdp, hpla⟩ := List.mem_filter.mp hd
    obtain ⟨b, s, hb, hs, hrec⟩ := extractDiv_eq_some hex
    exact ⟨d, b, s, hdp, hpla, hb, hs, hrec⟩
  · intro now d h
    unfold extractDiv
    cases hb : findBeachLabel d <;> cases hs : findStatusLabel d <;> simp_all

/-- Witness for C2 amended: a container with no name label drops its
record; the whitespace-name container emits the empty-beach record. -/
theorem c2_amended_witness :
    extractDiv "t" demoDivNoName = none
    ∧ ∃ d b s, d ∈ blankNamePage ∧ isPLA d = true ∧ findBeachLabel d = some b
        ∧ findStatusLabel d = some s
        ∧ (⟨"t", "", "Oberta"⟩ : ParkingRecord) = ⟨"t", pyStrip b.text, pyStrip s.text⟩ :=
  ⟨c2_amended_both_labels_required.2 "t" demoDivNoName (Or.inl (by decide)),
   c2_amended_both_labels_required.1 blankNamePage "t" _ (by decide)⟩

/-! ## C4 -/

/-- C4: the process exits 0 exactly on full success — records extracted,
persistence (when requested) set up and confirmed, and the step-summary
append (when GitHub Actions mode is on) able to read its path — and exits 1
in each of the three failure cases: no records extracted (including a fetch
failure), persistence requested but the bulk write failed, and persistence
requested but the credential variables missing (untruthy). -/
theorem c4_exit_codes (argv : List String) (env : Env) (fetch : FetchResult)
    (nowIso utcNow : String) (clientOk : Bool)
    (backend : List DbRecord → BackendResult) (file0 : String) :
    (scrape_parking_status fetch nowIso = [] →
      (mainFn argv env fetch nowIso utcNow clientOk backend file0).outcome = .exit1)
    ∧ (scrape_parking_status fetch nowIso ≠ [] → argv.contains "--no-db" = false →
        (truthy env.supabaseUrl && truthy env.supabaseKey) = false →
        (mainFn argv env fetch nowIso utcNow clientOk backend file0).outcome = .exit1)
    ∧ (scrape_parking_status fetch nowIso ≠ [] → argv.contains "--no-db" = false →
        setup_supabase env clientOk = true →
        (save_to_supabase backend (scrape_parking_status fetch nowIso)).1 = false →
        (mainFn argv env fetch nowIso utcNow clientOk backend file0).outcome = .exit1)
    ∧ ((mainFn argv env fetch nowIso utcNow clientOk backend file0).outcome = .exit0 ↔
        (scrape_parking_status fetch nowIso ≠ []
         ∧ (argv.contains "--no-db" = false →
             setup_supabase env clientOk = true
             ∧ (save_to_supabase backend (scrape_parking_status fetch nowIso)).1 = true)
         ∧ (truthy env.githubActions = true → env.githubStepSummary ≠ none))) := by
  refine ⟨?_, ?_, ?_, ?_⟩
  · intro h
    simp [mainFn, h]
  · intro h1 h2 h3
    have h2m : "--no-db" ∉ argv := by simpa using h2
    have hpe : (scrape_parking_status fetch nowIso).isEmpty = false := by
      cases hx : (scrape_parking_status fetch nowIso).isEmpty
      · rfl
      · exact absurd (List.isEmpty_iff.mp hx) h1
    simp [mainFn, hpe, h2m, h3, setup_supabase]
  · intro h1 h2 h3 h4
    have h2m : "--no-db" ∉ argv := by simpa using h2
    have hpe : (scrape_parking_status fetch nowIso).isEmpty = false := by
      cases hx : (scrape_parking_status fetch nowIso).isEmpty
      · rfl
      · exact absurd (List.isEmpty_iff.mp hx) h1
    simp [mainFn, hpe, h2m, h3, h4]
  · cases hpd : (scrape_parking_status fetch nowIso).isEmpty
    · have hne : scrape_parking_status fetch nowIso ≠ [] := by
        intro hx
        simp [hx] at hpd
      by_cases hc : "--no-db" ∈ argv <;>
        cases hga : truthy env.githubActions <;>
        cases hss : env.githubStepSummary <;>
        cases hsetup : setup_supabase env clientOk <;>
        cases hsave : (save_to_supabase backend (scrape_parking_status fetch nowIso)).1 <;>
        simp [mainFn, hpd, hne, hc, hga, hss, hsetup, hsave]
    · simp [mainFn, hpd, List.isEmpty_iff.mp hpd]

/-- Witness for C4: a concrete full success (no-db run under no
orchestrator) exits 0; a concrete fetch failure exits 1. -/
theorem c4_exit_codes_witness :
    (mainFn ["--no-db"] emptyEnv (.success demoPage) "t" "u" true backendEcho "").outcome = .exit0
    ∧ (mainFn [] emptyEnv (.failure "boom") "t" "u" true backendEcho "").outcome = .exit1 :=
  ⟨(c4_exit_codes ["--no-db"] emptyEnv (.success demoPage) "t" "u" true backendEcho "").2.2.2.mpr
      ⟨by decide, by decide, by decide⟩,
   (c4_exit_codes [] emptyEnv (.failure "boom") "t" "u" true backendEcho "").1 rfl⟩

/-! ## More helper lemmas -/

/-- A non-nil list has `isEmpty = false`. -/
theorem isEmpty_false_of_ne {α : Type} {l : List α} (h : l ≠ []) : l.isEmpty = false := by
  cases hx : l.isEmpty
  · rfl
  · exact absurd (List.isEmpty_iff.mp hx) h

/-- The single insert call always carries the full mapped record list. -/
theorem save_to_supabase_snd (backend : List DbRecord → BackendResult)
    (pd : List ParkingRecord) :
    (save_to_supabase backend pd).2 = [pd.map toDbRecord] := by
  simp only [save_to_supabase]
  cases hb : backend (pd.map toDbRecord) <;> simp [hb]

/-- The summary text is never the empty string (it starts with a newline
and a Markdown header). -/
theorem summaryText_ne_empty (utcNow : String) (pd : List ParkingRecord) :
    summaryText utcNow pd ≠ "" := by
  intro h
  have := congrArg String.data h
  simp [summaryText, String.data_append] at this

/-! ## C6 -/

/-- C6 counterexample: the claim quantifies over every invocation, but an
invocation with `--no-db` whose fetch fails (so no records are extracted)
exits 1 before the output step and emits no JSON at all. -/
theorem c6_nodb_counterexample :
    "--no-db" ∈ (["--no-db"] : List String)
    ∧ (mainFn ["--no-db"] emptyEnv (.failure "ConnectTimeout") "t" "u" true
        backendEcho "").printedJson = none
    ∧ (mainFn ["--no-db"] emptyEnv (.failure "ConnectTimeout") "t" "u" true
        backendEcho "").outcome = .exit1 :=
  ⟨by decide, by decide, by decide⟩

/-- C6 amended: `--no-db` suppresses the persistence step entirely and, on
every invocation that reaches the output step (i.e. in which records were
extracted), causes JSON emission regardless of `--json`; and `--json`
forces JSON emission even when persistence is performed and succeeds. -/
theorem c6_amended_flags (argv : List String) (env : Env) (fetch : FetchResult)
    (nowIso utcNow : String) (clientOk : Bool)
    (backend : List DbRecord → BackendResult) (file0 : String) :
    (argv.contains "--no-db" = true →
      (mainFn argv env fetch nowIso utcNow clientOk backend file0).insertCalls = []
      ∧ (scrape_parking_status fetch nowIso ≠ [] →
          (mainFn argv env fetch nowIso utcNow clientOk backend file0).printedJson
            = some (emitJsonStr (scrape_parking_status fetch nowIso))))
    ∧ (argv.contains "--json" = true → scrape_parking_status fetch nowIso ≠ [] →
        argv.contains "--no-db" = false →
        setup_supabase env clientOk = true →
        (save_to_supabase backend (scrape_parking_status fetch nowIso)).1 = true →
        (mainFn argv env fetch nowIso utcNow clientOk backend file0).printedJson
          = some (emitJsonStr (scrape_parking_status fetch nowIso))) := by
  constructor
  · intro hc
    have hcm : "--no-db" ∈ argv := by simpa using hc
    constructor
    · cases hpd : (scrape_parking_status fetch nowIso).isEmpty <;>
        cases hga : truthy env.githubActions <;>
        cases hss : env.githubStepSummary <;>
        simp [mainFn, hpd, hcm, hga, hss]
    · intro hne
      have hpe := isEmpty_false_of_ne hne
      cases hga : truthy env.githubActions <;>
        cases hss : env.githubStepSummary <;>
        simp [mainFn, hpe, hcm, hga, hss]
  · intro hj hne hc hsetup hsave
    have hcm : "--no-db" ∉ argv := by simpa using hc
    have hjm : "--json" ∈ argv := by simpa using hj
    have hpe := isEmpty_false_of_ne hne
    cases hga : truthy env.githubActions <;>
      cases hss : env.githubStepSummary <;>
      simp [mainFn, hpe, hcm, hjm, hga, hss, hsetup, hsave]

/-- Witness for C6 amended: a `--no-db` run emits JSON with no insert
call; a `--json` run with successful persistence also emits JSON. -/
theorem c6_amended_flags_witness :
    (mainFn ["--no-db"] emptyEnv (.success demoPage) "t" "u" true backendEcho "").insertCalls = []
    ∧ (mainFn ["--no-db"] emptyEnv (.success demoPage) "t" "u" true backendEcho "").printedJson
        = some (emitJsonStr (scrape_parking_status (.success demoPage) "t"))
    ∧ (mainFn ["--json"] fullEnv (.success demoPage) "t" "u" true backendEcho "").printedJson
        = some (emitJsonStr (scrape_parking_status (.success demoPage) "t")) :=
  ⟨((c6_amended_flags ["--no-db"] emptyEnv (.success demoPage) "t" "u" true backendEcho "").1
      (by decide)).1,
   ((c6_amended_flags ["--no-db"] emptyEnv (.success demoPage) "t" "u" true backendEcho "").1
      (by decide)).2 (by decide),
   (c6_amended_flags ["--json"] fullEnv (.success demoPage) "t" "u" true backendEcho "").2
      (by decide) (by decide) (by decide) (by decide) (by decide)⟩

/-! ## C9 -/

/-- C9: exactly when `GITHUB_ACTIONS` is present (set to a non-empty
value, the truthiness the code tests at line 191), a successful run
appends — does not overwrite — the human-readable summary to the file
named by `GITHUB_STEP_SUMMARY` (opened in mode `'a'`, line 204); when the
variable is untruthy the file is never touched.  The appended text is
non-empty, so appending is observable. -/
theorem c9_summary_append (argv : List String) (env : Env) (fetch : FetchResult)
    (nowIso utcNow : String) (clientOk : Bool)
    (backend : List DbRecord → BackendResult) (file0 : String) :
    (truthy env.githubActions = false →
      (mainFn argv env fetch nowIso utcNow clientOk backend file0).summaryFile = file0)
    ∧ (truthy env.githubActions = true →
        (mainFn argv env fetch nowIso utcNow clientOk backend file0).outcome = .exit0 →
        (mainFn argv env fetch nowIso utcNow clientOk backend file0).summaryFile
          = file0 ++ summaryText utcNow (scrape_parking_status fetch nowIso))
    ∧ summaryText utcNow (scrape_parking_status fetch nowIso) ≠ "" := by
  refine ⟨?_, ?_, summaryText_ne_empty utcNow _⟩
  · intro hga
    cases hpd : (scrape_parking_status fetch nowIso).isEmpty <;>
      by_cases hc : "--no-db" ∈ argv <;>
      cases hsetup : setup_supabase env clientOk <;>
      cases hsave : (save_to_supabase backend (scrape_parking_status fetch nowIso)).1 <;>
      simp [mainFn, hpd, hga, hc, hsetup, hsave]
  · intro hga hout
    cases hpd : (scrape_parking_status fetch nowIso).isEmpty <;>
      by_cases hc : "--no-db" ∈ argv <;>
      cases hss : env.githubStepSummary <;>
      cases hsetup : setup_supabase env clientOk <;>
      cases hsave : (save_to_supabase backend (scrape_parking_status fetch nowIso)).1 <;>
      simp_all [mainFn, hpd, hga, hc, hss, hsetup, hsave]

/-- Witness for C9: without `GITHUB_ACTIONS` the file is untouched; with
it (and a configured path) the summary is appended to the prior content. -/
theorem c9_summary_append_witness :
    (mainFn ["--no-db"] emptyEnv (.success demoPage) "t" "u" true backendEcho "init").summaryFile
      = "init"
    ∧ (mainFn [] fullEnv (.success demoPage) "t" "u" true backendEcho "init").summaryFile
      = "init" ++ summaryText "u" (scrape_parking_status (.success demoPage) "t") :=
  ⟨(c9_summary_append ["--no-db"] emptyEnv (.success demoPage) "t" "u" true backendEcho "init").1
      (by decide),
   (c9_summary_append [] fullEnv (.success demoPage) "t" "u" true backendEcho "init").2.1
      (by decide) (by decide)⟩

/-! ## C10 -/

/-- C10: when `GITHUB_ACTIONS` is set (truthy) but `GITHUB_STEP_SUMMARY`
is absent, a run in which records were extracted and persistence (when
requested) succeeded reaches line 204 and dies on the uncaught `KeyError`
from `os.environ['GITHUB_STEP_SUMMARY']` — the interpreter then exits with
a non-zero status although every pipeline step succeeded; the summary file
is never written, and any requested persistence has already happened. -/
theorem c10_keyerror (argv : List String) (env : Env) (fetch : FetchResult)
    (nowIso utcNow : String) (clientOk : Bool)
    (backend : List DbRecord → BackendResult) (file0 : String)
    (hga : truthy env.githubActions = true)
    (hss : env.githubStepSummary = none)
    (hne : scrape_parking_status fetch nowIso ≠ [])
    (hps : argv.contains "--no-db" = false →
        setup_supabase env clientOk = true
        ∧ (save_to_supabase backend (scrape_parking_status fetch nowIso)).1 = true) :
    (mainFn argv env fetch nowIso utcNow clientOk backend file0).outcome = .keyError
    ∧ (mainFn argv env fetch nowIso utcNow clientOk backend file0).summaryFile = file0
    ∧ (argv.contains "--no-db" = false →
        (mainFn argv env fetch nowIso utcNow clientOk backend file0).insertCalls
          = [(scrape_parking_status fetch nowIso).map toDbRecord]) := by
  have hpe := isEmpty_false_of_ne hne
  by_cases hc : "--no-db" ∈ argv
  · refine ⟨?_, ?_, ?_⟩ <;> simp [mainFn, hpe, hga, hss, hc]
  · obtain ⟨hsetup, hsave⟩ := hps (by simpa using hc)
    refine ⟨?_, ?_, ?_⟩ <;>
      simp [mainFn, hpe, hga, hss, hc, hsetup, hsave, save_to_supabase_snd]

/-- Witness for C10: a concrete persisting run under GitHub Actions with
no `GITHUB_STEP_SUMMARY` dies on the `KeyError` after the insert call. -/
theorem c10_keyerror_witness :
    (mainFn [] noSummaryEnv (.success demoPage) "t" "u" true backendEcho "").outcome = .keyError
    ∧ (mainFn [] noSummaryEnv (.success demoPage) "t" "u" true backendEcho "").summaryFile = ""
    ∧ (mainFn [] noSummaryEnv (.success demoPage) "t" "u" true backendEcho "").insertCalls
        = [(scrape_parking_status (.success demoPage) "t").map toDbRecord] :=
  ⟨(c10_keyerror [] noSummaryEnv (.success demoPage) "t" "u" true backendEcho ""
      (by decide) rfl (by decide) (by decide)).1,
   (c10_keyerror [] noSummaryEnv (.success demoPage) "t" "u" true backendEcho ""
      (by decide) rfl (by decide) (by decide)).2.1,
   (c10_keyerror [] noSummaryEnv (.success demoPage) "t" "u" true backendEcho ""
      (by decide) rfl (by decide) (by decide)).2.2 (by decide)⟩

/-! ## JSON round-trip helper lemmas -/

/-- The hex digit emitted for a value below 16 decodes to that value. -/
theorem hexRound : ∀ m : Nat, m < 16 → hexVal (hexDigitChar m) = some m := by decide

/-- Expecting a literal succeeds exactly on inputs that start with it. -/
theorem dropLit_append (l rest : List Char) : dropLit l (l ++ rest) = some rest := by
  induction l with
  | nil => rfl
  | cons c cs ih => simp [dropLit, ih]

/-- Decoding inverts the CPython escape: the escaped body followed by the
closing quote parses back to the original characters. -/
theorem parseStrBody_escList (s rest : List Char) :
    parseStrBody (escList s ++ '"' :: rest) = some (s, rest) := by
  induction s with
  | nil =>
    simp only [escList, List.nil_append]
    unfold parseStrBody
    simp
  | cons c cs ih =>
    simp only [escList]
    rw [List.append_assoc]
    by_cases h1 : c = '"'
    · subst h1
      simp only [escChar, reduceIte, List.cons_append]
      unfold parseStrBody
      simp [unescChar, ih]
    · by_cases h2 : c = '\\'
      · subst h2
        simp only [escChar, reduceIte, List.cons_append]
        unfold parseStrBody
        simp [unescChar, ih]
      · by_cases h3 : c = '\x08'
        · subst h3
          simp only [escChar, reduceIte, List.cons_append]
          unfold parseStrBody
          simp [unescChar, ih]
        · by_cases h4 : c = '\x09'
          · subst h4
            simp only [escChar, reduceIte, List.cons_append]
            unfold parseStrBody
            simp [unescChar, ih]
          · by_cases h5 : c = '\x0a'
            · subst h5
              simp only [escChar, reduceIte, List.cons_append]
              unfold parseStrBody
              simp [unescChar, ih]
            · by_cases h6 : c = '\x0c'
              · subst h6
                simp only [escChar, reduceIte, List.cons_append]
                unfold parseStrBody
                simp [unescChar, ih]
              · by_cases h7 : c = '\x0d'
                · subst h7
                  simp only [escChar, reduceIte, List.cons_append]
                  unfold parseStrBody
                  simp [unescChar, ih]
                · by_cases h8 : c.toNat < 32
                  · have e0 : hexVal '0' = some 0 := by decide
                    have e1 : hexVal (hexDigitChar (c.toNat / 16)) = some (c.toNat / 16) :=
                      hexRound _ (by omega)
                    have e2 : hexVal (hexDigitChar (c.toNat % 16)) = some (c.toNat % 16) :=
                      hexRound _ (by omega)
                    simp only [escChar, if_neg h1, if_neg h2, if_neg h3, if_neg h4, if_neg h5,
                      if_neg h6, if_neg h7, if_pos h8, List.cons_append]
                    unfold parseStrBody
                    simp [e0, e1, e2, ih, Nat.div_add_mod, Char.ofNat_toNat]
                  · simp only [escChar, if_neg h1, if_neg h2, if_neg h3, if_neg h4, if_neg h5,
                      if_neg h6, if_neg h7, if_neg h8, List.cons_append]
                    unfold parseStrBody
                    simp [h1, h2, ih]

/-- Parsing inverts emission for one record object. -/
theorem parseRec_emit (r : ParkingRecord) (rest : List Char) :
    parseRec (emitRecord r ++ rest) = some (r, rest) := by
  obtain ⟨d, b, st⟩ := r
  obtain ⟨dl⟩ := d
  obtain ⟨bl⟩ := b
  obtain ⟨stl⟩ := st
  simp only [emitRecord, qbody, List.append_assoc, List.singleton_append, List.cons_append,
    List.nil_append, parseRec, dropLit_append, parseStrBody_escList]

/-- An emitted record object is at least one character long. -/
theorem emitRecord_length_pos (r : ParkingRecord) : 0 < (emitRecord r).length := by
  have h : 0 < jsonHeadDate.length := by decide
  simp [emitRecord, List.length_append]
  omega

/-- The emitted object list is at least as long (in characters) as the
record list, so the parser fuel derived from the input length suffices. -/
theorem le_emitRecs_length : ∀ rs : List ParkingRecord, rs ≠ [] →
    rs.length ≤ (emitRecs rs).length := by
  intro rs
  induction rs with
  | nil => intro h; exact absurd rfl h
  | cons r rs' ih =>
    intro _
    cases rs' with
    | nil =>
      have h1 := emitRecord_length_pos r
      simp only [emitRecs, List.length_cons, List.length_nil]
      omega
    | cons r2 rs'' =>
      have h1 := emitRecord_length_pos r
      have h2 := ih (by simp)
      simp only [emitRecs, List.length_append, List.length_cons] at *
      omega

/-- Parsing inverts emission for the full `",\n"`-separated sequence. -/
theorem parseRecs_emitRecs : ∀ (rs : List ParkingRecord) (fuel : Nat), rs ≠ [] →
    rs.length ≤ fuel → parseRecs fuel (emitRecs rs ++ ['\n', ']']) = some rs := by
  intro rs
  induction rs with
  | nil => intro fuel h _; exact absurd rfl h
  | cons r rs' ih =>
    intro fuel _ hlen
    cases fuel with
    | zero => simp at hlen
    | succ f =>
      cases rs' with
      | nil =>
        simp only [emitRecs]
        unfold parseRecs
        simp [parseRec_emit]
      | cons r2 rs'' =>
        have hlen' : (r2 :: rs'').length ≤ f := by
          simp only [List.length_cons] at hlen ⊢
          omega
        simp only [emitRecs, List.cons_append, List.append_assoc]
        unfold parseRecs
        simp [parseRec_emit, ih f (by simp) hlen']


/-! ## C8 -/

/-- C8: serializing any extracted record list to the emitted JSON (keys
`Date`, `Beach`, `Status`; `indent=2`; `ensure_ascii=False`) and parsing
that JSON text back reproduces every record's three fields exactly; and
every character at or above U+0080 — every non-ASCII character, beach
names included — is written into the output unescaped. -/
theorem c8_json_roundtrip :
    (∀ rs : List ParkingRecord, parseEmittedStr (emitJsonStr rs) = some rs)
    ∧ (∀ c : Char, 128 ≤ c.toNat → escChar c = [c]) := by
  constructor
  · intro rs
    show parseEmitted (emitJson rs) = some rs
    cases rs with
    | nil => rfl
    | cons r rs' =>
      show parseEmitted ('[' :: '\n' :: (emitRecs (r :: rs') ++ ['\n', ']'])) = some (r :: rs')
      unfold parseEmitted
      exact parseRecs_emitRecs (r :: rs') _ (by simp)
        (by
          have h1 := le_emitRecs_length (r :: rs') (by simp)
          simp only [List.length_append, List.length_cons] at *
          omega)
  · intro c h
    have h1 : ¬ c = '"' := by intro e; subst e; exact absurd h (by decide)
    have h2 : ¬ c = '\\' := by intro e; subst e; exact absurd h (by decide)
    have h3 : ¬ c = '\x08' := by intro e; subst e; exact absurd h (by decide)
    have h4 : ¬ c = '\x09' := by intro e; subst e; exact absurd h (by decide)
    have h5 : ¬ c = '\x0a' := by intro e; subst e; exact absurd h (by decide)
    have h6 : ¬ c = '\x0c' := by intro e; subst e; exact absurd h (by decide)
    have h7 : ¬ c = '\x0d' := by intro e; subst e; exact absurd h (by decide)
    have h8 : ¬ c.toNat < 32 := by omega
    simp [escChar, h1, h2, h3, h4, h5, h6, h7, h8]

set_option maxRecDepth 100000 in
/-- Witness for C8: the round trip at a concrete record list with a
non-ASCII beach name, and a concrete non-ASCII character left intact. -/
theorem c8_json_roundtrip_witness :
    parseEmittedStr (emitJsonStr accentRecords) = some accentRecords
    ∧ escChar 'é' = ['é'] :=
  ⟨c8_json_roundtrip.1 accentRecords, c8_json_roundtrip.2 'é' (by decide)⟩
